import Mathlib

/-!
Shallow embedding of the frame capture, rate-control and network video
emission pipeline of `src/vingester-main.js` (the Vingester main process),
together with proofs settling the frozen claims about it.

Numbers that the JavaScript source manipulates as IEEE doubles are modelled
as exact rationals (`ℚ`); the sentinel values `Number.NEGATIVE_INFINITY` /
`Number.POSITIVE_INFINITY` used by the `WeightedAverage` class are modelled
by the three-point extension `JNum` of `ℚ`.
-/

namespace Vingester

/-- Extension of `ℚ` with the two infinities, mirroring the JavaScript
number line as far as the `WeightedAverage` class uses it. -/
inductive JNum where
  | negInf : JNum
  | fin : ℚ → JNum
  | posInf : JNum
deriving DecidableEq, Repr

/-- Strict `<` on `JNum`, mirroring the JavaScript `<` on numbers
(restricted to rationals and the infinities). -/
def JNum.lt : JNum → JNum → Bool
  | .negInf, .negInf => false
  | .negInf, _ => true
  | .fin _, .negInf => false
  | .fin a, .fin b => decide (a < b)
  | .fin _, .posInf => true
  | .posInf, _ => false

/-- Weighted sum accumulated by the loop in `WeightedAverage.record`:
`avg += this.val[i] * k` with `k = this.len - i`, so the weight starts at
the window length and decreases by one per element. -/
def wsum : ℕ → List ℚ → ℚ
  | _, [] => 0
  | k, x :: xs => x * (k : ℚ) + wsum (k - 1) xs

/-- Weight sum accumulated by the loop in `WeightedAverage.record`:
`div += k` with `k = this.len - i`. -/
def ksum : ℕ → List ℚ → ℚ
  | _, [] => 0
  | k, _ :: xs => (k : ℚ) + ksum (k - 1) xs

/-- Window maximum: the fold performed by
`if (max < this.val[i]) max = this.val[i]` starting from
`Number.NEGATIVE_INFINITY`. -/
def windowMax (l : List ℚ) : JNum :=
  l.foldl (fun m x => if JNum.lt m (.fin x) then .fin x else m) .negInf

/-- Window minimum: the fold performed by
`if (min > this.val[i]) min = this.val[i]` starting from
`Number.POSITIVE_INFINITY`. -/
def windowMin (l : List ℚ) : JNum :=
  l.foldl (fun m x => if JNum.lt (.fin x) m then .fin x else m) .posInf

/-- State of the `WeightedAverage` helper class (the Moving Statistics
Tracker): window length `len`, emission divisor `every`, the ring `val` of
recent values (newest first), the call counter `cnt`, and the all-time
fields `this.max` / `this.min`. -/
structure WeightedAverage where
  len : ℕ
  every : ℚ
  val : List ℚ
  cnt : ℕ
  max : JNum
  min : JNum
deriving DecidableEq, Repr

/-- Sample emitted by `WeightedAverage.record` to its callback:
`{avg, min, max, tmin: this.min, tmax: this.max}`. -/
structure StatSample where
  avg : ℚ
  min : JNum
  max : JNum
  tmin : JNum
  tmax : JNum
deriving DecidableEq, Repr

/-- The `WeightedAverage` constructor: `val` pre-filled with `len` zeros,
`cnt = 0`, `max = -Infinity`, `min = +Infinity`. -/
def WeightedAverage.init (len : ℕ) (every : ℚ) : WeightedAverage :=
  { len := len, every := every, val := List.replicate len 0, cnt := 0,
    max := .negInf, min := .posInf }

/-- One call of `WeightedAverage.record(val, callback)`.  The method pops
the oldest value, unshifts the new one, folds window max/min and the
triangularly weighted average over indices `i < len`, then updates the
all-time fields — note that the source updates `this.min` by comparing it
against the window **max** (`if (this.min > max) this.min = max`), which is
mirrored here verbatim — and finally fires the callback only when the
post-incremented counter exceeds `every`.  The callback payload is returned
as the optional second component. -/
def WeightedAverage.record (w : WeightedAverage) (v : ℚ) :
    WeightedAverage × Option StatSample :=
  let val := v :: w.val.dropLast
  let window := val.take w.len
  let wmax := windowMax window
  let tmax := if JNum.lt w.max wmax then wmax else w.max
  let tmin := if JNum.lt wmax w.min then wmax else w.min
  let emit := w.every < (w.cnt : ℚ)
  ({ len := w.len, every := w.every, val := val,
     cnt := if emit then 0 else w.cnt + 1, max := tmax, min := tmin },
   if emit then
     some { avg := wsum w.len window / ksum w.len window,
            min := windowMin window, max := wmax, tmin := tmin, tmax := tmax }
   else none)

/-- Record a whole sequence of values, collecting every emitted sample in
call order. -/
def recordMany (w : WeightedAverage) : List ℚ → WeightedAverage × List StatSample
  | [] => (w, [])
  | v :: vs =>
    let r := w.record v
    let rest := recordMany r.1 vs
    (rest.1, r.2.toList ++ rest.2)

/-- The window contents after recording `vs` (oldest last) into a freshly
constructed tracker of length `N`: the reversed inputs padded with the
constructor's zeros, truncated to length `N`. -/
def windowOf (N : ℕ) (vs : List ℚ) : List ℚ :=
  (vs.reverse ++ List.replicate N 0).take N

/-- The descending list `[n, n-1, …, 1]` over `ℚ`: the window contents
after recording `1, 2, …, n` into a fresh tracker of window length `n`. -/
def desc : ℕ → List ℚ
  | 0 => []
  | n + 1 => ((n + 1 : ℕ) : ℚ) :: desc n

/-- The ascending input list `[1, 2, …, n]` over `ℚ`. -/
def inputs : ℕ → List ℚ
  | 0 => []
  | n + 1 => inputs n ++ [((n + 1 : ℕ) : ℚ)]

/-- The fields of the browser configuration object `this.cfg` that the
modelled pipeline reads: URL `u`, title `t`, pixel size `w`/`h`, target
frame rate `f`, background colour `c`, and the flags `D` (visible window),
`N` (NDI network video) and `P` (preview capture). -/
structure Config where
  u : String
  t : Option String
  w : ℕ
  h : ℕ
  f : ℕ
  c : String
  D : Bool
  N : Bool
  P : Bool
deriving DecidableEq, Repr

/-- A partial configuration, as handed to `Browser.reconfigure`:
`Object.assign(this.cfg, cfg)` overwrites exactly the fields present. -/
structure ConfigPatch where
  u : Option String := none
  t : Option (Option String) := none
  w : Option ℕ := none
  h : Option ℕ := none
  f : Option ℕ := none
  c : Option String := none
  D : Option Bool := none
  N : Option Bool := none
  P : Option Bool := none
deriving DecidableEq, Repr

/-- Field-wise merge performed by `Object.assign(this.cfg, cfg)`. -/
def Config.merge (c : Config) (p : ConfigPatch) : Config :=
  { u := p.u.getD c.u, t := p.t.getD c.t, w := p.w.getD c.w,
    h := p.h.getD c.h, f := p.f.getD c.f, c := p.c.getD c.c,
    D := p.D.getD c.D, N := p.N.getD c.N, P := p.P.getD c.P }

/-- The rendering surface (`electron.BrowserWindow`) as far as the core
observes it: whether it has been destroyed, and the loaded URL. -/
structure Win where
  destroyed : Bool
  url : String
deriving DecidableEq, Repr

/-- Environment supplied by the OS display subsystem and by the timing of
the grace-period teardown: the display refresh rate `D.displayFrequency`,
the primary display scale factor, and whether the rendering surface
delivers its `close` event (self-reports closure) during `stop()`. -/
structure Env where
  displayFrequency : ℕ
  scaleFactor : ℚ
  selfClose : Bool
deriving DecidableEq, Repr

/-- JavaScript `Math.trunc` on an exact rational: round towards zero. -/
def jsTrunc (q : ℚ) : ℤ :=
  if 0 ≤ q then ⌊q⌋ else ⌈q⌉

/-- State of one `Browser` instance (Surface Session Controller): the
configuration, the nullable window handle, the frame-subscription flag,
the nullable NDI sender handle, the frame-skip threshold
`this.ndiFramesToSkip`, the cycling counter `this.frames`, the per-surface
statistics tracker `this.burst`, the display scale factor and the resolved
output frame rate. -/
structure Browser where
  id : String
  cfg : Config
  win : Option Win
  subscribed : Bool
  ndiSender : Option Unit
  ndiFramesToSkip : ℤ
  frames : ℕ
  burst : Option WeightedAverage
  factor : ℚ
  framerate : ℕ
deriving DecidableEq, Repr

/-- The `Browser` constructor. -/
def Browser.init (id : String) (cfg : Config) : Browser :=
  { id := id, cfg := cfg, win := none, subscribed := false, ndiSender := none,
    ndiFramesToSkip := 0, frames := 0, burst := none, factor := 1,
    framerate := 30 }

/-- `Browser.running()`: the phase is inferred from the nullable window
handle. -/
def Browser.running (b : Browser) : Bool :=
  b.win.isSome

/-- `Browser.start()` (the state-relevant core).  The resolved frame rate
is the configured target rate when NDI output is enabled, else the display
refresh rate; the NDI sender is created iff `cfg.N`; the statistics tracker
is created with window = frame rate and emission divisor = half of it; the
window is created and the URL loaded.  With a visible window (`cfg.D`) the
frame-subscription path is wired and
`ndiFramesToSkip = Math.trunc(displayFrequency / framerate - 1)`; with
off-screen rendering and NDI (`!cfg.D && cfg.N`) the paint hook is used at
the exact target rate and `ndiFramesToSkip = 0`. -/
def Browser.start (env : Env) (b : Browser) : Browser :=
  let framerate := if b.cfg.N then b.cfg.f else env.displayFrequency
  let base : Browser :=
    { b with
      factor := env.scaleFactor,
      framerate := framerate,
      ndiSender := if b.cfg.N then some () else none,
      burst := some (WeightedAverage.init framerate ((framerate : ℚ) / 2)),
      win := some { destroyed := false, url := b.cfg.u } }
  if b.cfg.D then
    { base with
      ndiFramesToSkip :=
        jsTrunc ((env.displayFrequency : ℚ) / (framerate : ℚ) - 1),
      subscribed := if b.cfg.N || b.cfg.P then true else b.subscribed }
  else if b.cfg.N then
    { base with ndiFramesToSkip := 0 }
  else base

/-- `Browser.update()`: when a window exists and is visible (`cfg.D`), end
the frame subscription if subscribed but preview is now off, or begin it if
unsubscribed but preview is now on; otherwise do nothing.  It touches
neither `ndiFramesToSkip` nor `frames`. -/
def Browser.update (b : Browser) : Browser :=
  if b.win.isSome then
    if b.cfg.D then
      if b.subscribed && !b.cfg.P then { b with subscribed := false }
      else if !b.subscribed && b.cfg.P then { b with subscribed := true }
      else b
    else b
  else b

/-- `Browser.reconfigure(cfg)`: merge the partial configuration, then
re-evaluate the capture-mode subscription via `update()`. -/
def Browser.reconfigure (b : Browser) (p : ConfigPatch) : Browser :=
  Browser.update { b with cfg := b.cfg.merge p }

/-- `Browser.processFrame(image, dirty)` (the state-relevant core): bail
out unless NDI or preview is enabled; when NDI is enabled run the
rate-governor check `if (this.frames++ > this.ndiFramesToSkip)` — the
returned flag says whether an NDI video frame was handed to the sender —
and finally record the processing time `dt` into the statistics tracker. -/
def Browser.processFrame (b : Browser) (dt : ℚ) : Browser × Bool :=
  if !(b.cfg.N || b.cfg.P) then (b, false)
  else
    let gov : ℕ × Bool :=
      if b.cfg.N then
        if b.ndiFramesToSkip < (b.frames : ℤ) then (0, true)
        else (b.frames + 1, false)
      else (b.frames, false)
    let burst := b.burst.map (fun wa => (wa.record dt).1)
    ({ b with frames := gov.1, burst := burst }, gov.2)

/-- Iterate `processFrame` over `n` raw frame arrivals (with zero recorded
processing time), counting how many NDI video frames were forwarded. -/
def runFrames : ℕ → Browser → Browser × ℕ
  | 0, b => (b, 0)
  | n + 1, b =>
    let r := b.processFrame 0
    let rest := runFrames n r.1
    (rest.1, (if r.2 then 1 else 0) + rest.2)

/-- `Browser.reload()`: throws `"still not started"` when no window
exists; otherwise asks the window to reload (no modelled state change). -/
def Browser.reload (b : Browser) : Except String Browser :=
  if b.win.isSome then .ok b else .error "still not started"

/-- `Browser.stop()`: throws `"still not started"` when no window exists.
Otherwise it requests `win.close()` — when the surface self-reports
closure, the `close` handler wired in `start()` prevents the default and
force-destroys the window at once (`this.destroy()`, nulling the handle) —
and then waits exactly one 1-second grace-period timeout, after which a
still-present window is forcibly destroyed and the handle nulled. -/
def Browser.stop (selfClose : Bool) (b : Browser) : Except String Browser :=
  match b.win with
  | none => .error "still not started"
  | some _ =>
    let b1 := if selfClose then { b with win := none } else b
    let b2 :=
      match b1.win with
      | none => b1
      | some _ => { b1 with win := none }
    .ok b2

/-- `Browser.destroy()`: throws `"still not started"` when no window
exists; otherwise force-releases the window immediately. -/
def Browser.destroy (b : Browser) : Except String Browser :=
  if b.win.isSome then .ok { b with win := none } else .error "still not started"

/-- The dispatcher's id → browser mapping (`const browsers = {}`); keys
are unique, as for a JavaScript object. -/
abbrev Registry := List (String × Browser)

/-- Property lookup `browsers[id]`. -/
def Registry.find : Registry → String → Option Browser
  | [], _ => none
  | (k, b) :: r, id => if k = id then some b else Registry.find r id

/-- Property assignment `browsers[id] = b`. -/
def Registry.set : Registry → String → Browser → Registry
  | [], id, b => [(id, b)]
  | (k, b0) :: r, id, b =>
    if k = id then (id, b) :: r else (k, b0) :: Registry.set r id b

/-- Property deletion `delete browsers[id]` (a no-op on a missing key). -/
def Registry.erase : Registry → String → Registry
  | [], _ => []
  | (k, b) :: r, id => if k = id then r else (k, b) :: Registry.erase r id

/-- Dispatcher state: the browser registry plus the ordered list of
`(channel, id)` events sent to the control user interface. -/
structure Sys where
  browsers : Registry
  events : List (String × String)
deriving DecidableEq, Repr

/-- The single-surface dispatcher actions of `control(action, id, cfg)`.
The bulk variants (`start-all`, `reload-all`, `stop-all`) only re-dispatch
these singular actions to surfaces in the applicable phase and are not
separately modelled. -/
inductive Action where
  | add (cfg : Config)
  | mod (p : ConfigPatch)
  | del
  | start
  | reload
  | stop
deriving DecidableEq, Repr

/-- The dispatcher `control(action, id, cfg)`.  The first component is the
error surfaced to the caller (`none` = success); the second is the
resulting state, including any events emitted before a throw.  Notes kept
faithful to the source: `mod` on an unknown id dereferences `undefined`
and so fails with a TypeError rather than an explicit invalid-id error;
`del` invokes `browsers[id].stop()` **without await**, so a
`"still not started"` rejection from a not-running surface never
propagates to the dispatcher, and `delete browsers[id]` runs regardless —
the entry is removed (a no-op for an absent id) and no event is sent. -/
def control (env : Env) (a : Action) (id : String) (s : Sys) :
    Option String × Sys :=
  match a with
  | .add cfg =>
    (none, { s with browsers := Registry.set s.browsers id (Browser.init id cfg) })
  | .mod p =>
    match Registry.find s.browsers id with
    | none => (some "TypeError: cannot read properties of undefined", s)
    | some b =>
      (none, { s with browsers := Registry.set s.browsers id (b.reconfigure p) })
  | .del =>
    (none, { s with browsers := Registry.erase s.browsers id })
  | .start =>
    match Registry.find s.browsers id with
    | none => (some "invalid browser id", s)
    | some b =>
      if b.running then (some "browser already running", s)
      else
        let s1 := { s with events := s.events ++ [("browser-start", id)] }
        let b1 := b.start env
        (none, { s1 with
          browsers := Registry.set s1.browsers id b1,
          events := s1.events ++ [("browser-started", id)] })
  | .reload =>
    match Registry.find s.browsers id with
    | none => (some "invalid browser id", s)
    | some b =>
      if !b.running then (some "browser still not running", s)
      else
        let s1 := { s with events := s.events ++ [("browser-reload", id)] }
        match b.reload with
        | .error e => (some e, s1)
        | .ok b1 =>
          (none, { s1 with
            browsers := Registry.set s1.browsers id b1,
            events := s1.events ++ [("browser-reloaded", id)] })
  | .stop =>
    match Registry.find s.browsers id with
    | none => (some "invalid browser id", s)
    | some b =>
      if !b.running then (some "browser still not running", s)
      else
        let s1 := { s with events := s.events ++ [("browser-stop", id)] }
        match Browser.stop env.selfClose b with
        | .error e => (some e, s1)
        | .ok b1 =>
          (none, { s1 with
            browsers := Registry.set s1.browsers id b1,
            events := s1.events ++ [("browser-stopped", id)] })

/-! Concrete fixtures used by witnesses and counterexamples. -/

/-- A polled-mode surface configuration: visible window, NDI enabled, no
preview, target rate 30. -/
def cfgPolled : Config :=
  { u := "http://example.org/", t := none, w := 1280, h := 720, f := 30,
    c := "#000000", D := true, N := true, P := false }

/-- A push-mode surface configuration: off-screen rendering, NDI enabled,
no preview, target rate 30. -/
def cfgPush : Config :=
  { u := "http://example.org/", t := none, w := 1280, h := 720, f := 30,
    c := "#000000", D := false, N := true, P := false }

/-- An environment with display refresh 60 Hz, scale factor 1, and a
surface that never self-reports closure. -/
def env60 : Env := { displayFrequency := 60, scaleFactor := 1, selfClose := false }

/-- A polled-mode surface as produced by `start()` under `env60`. -/
def bPolled : Browser := Browser.start env60 (Browser.init "b1" cfgPolled)

/-- A push-mode surface as produced by `start()` under `env60`. -/
def bPush : Browser := Browser.start env60 (Browser.init "b2" cfgPush)

/-- The polled-mode surface after two raw frame arrivals (counter at 2,
still Running). -/
def bReC : Browser := (runFrames 2 bPolled).1

/-- A reconfiguration that only changes the target rate to 60. -/
def patch60 : ConfigPatch := { f := some 60 }

/-- A Running surface (window handle present). -/
def bRun : Browser :=
  { id := "a", cfg := cfgPolled,
    win := some { destroyed := false, url := "http://example.org/" },
    subscribed := true, ndiSender := some (), ndiFramesToSkip := 1,
    frames := 0, burst := none, factor := 1, framerate := 30 }

/-- A registered surface that was never started (window handle null). -/
def bIdle : Browser := Browser.init "b" cfgPolled

/-- A registry holding the Running surface `"a"` and the idle surface
`"b"`, with no events emitted yet. -/
def sys0 : Sys := { browsers := [("a", bRun), ("b", bIdle)], events := [] }

/-- An empty registry. -/
def sysEmpty : Sys := { browsers := [], events := [] }

/-- A registry holding only the never-started surface `"c"`. -/
def sysIdle : Sys :=
  { browsers := [("c", Browser.init "c" cfgPolled)], events := [] }

/-- The sample emitted by `record(5)` on a fresh window-2 tracker with
`every = -1`: window `[5, 0]`, weighted average `(5·2 + 0·1)/3`. -/
def sampleRec5 : StatSample :=
  { avg := 10/3, min := .fin 0, max := .fin 5, tmin := .fin 5, tmax := .fin 5 }

/-- The sample emitted by the second call of `record(1); record(2)` on a
fresh window-2 tracker with `every = -1`: window `[2, 1]`, weighted
average `(2·2 + 1·1)/3`. -/
def sampleDesc2 : StatSample :=
  { avg := 5/3, min := .fin 1, max := .fin 2, tmin := .fin 1, tmax := .fin 2 }

/-! Helper lemmas about the rate governor inside `processFrame`. -/

lemma processFrame_cfg (b : Browser) (dt : ℚ) :
    (b.processFrame dt).1.cfg = b.cfg := by
  unfold Browser.processFrame
  split <;> rfl

lemma processFrame_skip (b : Browser) (dt : ℚ) :
    (b.processFrame dt).1.ndiFramesToSkip = b.ndiFramesToSkip := by
  unfold Browser.processFrame
  split <;> rfl

lemma processFrame_no_send (b : Browser) (dt : ℚ) (hN : b.cfg.N = true)
    (h : (b.frames : ℤ) ≤ b.ndiFramesToSkip) :
    (b.processFrame dt).2 = false ∧ (b.processFrame dt).1.frames = b.frames + 1 := by
  unfold Browser.processFrame
  simp [hN, not_lt.mpr h]

lemma processFrame_send (b : Browser) (dt : ℚ) (hN : b.cfg.N = true)
    (h : b.ndiFramesToSkip < (b.frames : ℤ)) :
    (b.processFrame dt).2 = true ∧ (b.processFrame dt).1.frames = 0 := by
  unfold Browser.processFrame
  simp [hN, h]

lemma runFrames_add : ∀ (m n : ℕ) (b : Browser),
    (runFrames (m + n) b).1 = (runFrames n (runFrames m b).1).1 ∧
    (runFrames (m + n) b).2 = (runFrames m b).2 + (runFrames n (runFrames m b).1).2 := by
  intro m
  induction m with
  | zero => intro n b; simp [runFrames]
  | succ m ih =>
    intro n b
    have hadd : m + 1 + n = (m + n) + 1 := by omega
    rw [hadd]
    simp only [runFrames]
    have h := ih n (b.processFrame 0).1
    exact ⟨h.1, by rw [h.2]; omega⟩

lemma runFrames_no_send (k : ℤ) : ∀ (j : ℕ) (b : Browser),
    b.cfg.N = true → b.ndiFramesToSkip = k → (b.frames : ℤ) + j = k + 1 →
    (runFrames j b).2 = 0 ∧ (runFrames j b).1.cfg = b.cfg ∧
    (runFrames j b).1.ndiFramesToSkip = k ∧
    ((runFrames j b).1.frames : ℤ) = k + 1 := by
  intro j
  induction j with
  | zero =>
    intro b hN hs hf
    refine ⟨rfl, rfl, hs, ?_⟩
    simpa using hf
  | succ j ih =>
    intro b hN hs hf
    have hle : (b.frames : ℤ) ≤ k := by push_cast at hf ⊢; omega
    have hstep := processFrame_no_send b 0 hN (hs ▸ hle)
    have hcfg := processFrame_cfg b 0
    have hskip := processFrame_skip b 0
    have ihr := ih (b.processFrame 0).1 (hcfg ▸ hN) (hskip ▸ hs)
      (by rw [hstep.2]; push_cast at hf ⊢; omega)
    simp only [runFrames]
    refine ⟨?_, ?_, ihr.2.2.1, ihr.2.2.2⟩
    · rw [hstep.1, ihr.1]; simp
    · rw [ihr.2.1, hcfg]

lemma runFrames_cycle (k : ℕ) (b : Browser) (hN : b.cfg.N = true)
    (hs : b.ndiFramesToSkip = (k : ℤ)) (hf : b.frames = 0) :
    (runFrames (k + 2) b).2 = 1 ∧ (runFrames (k + 2) b).1.cfg = b.cfg ∧
    (runFrames (k + 2) b).1.ndiFramesToSkip = (k : ℤ) ∧
    (runFrames (k + 2) b).1.frames = 0 := by
  have hns := runFrames_no_send (k : ℤ) (k + 1) b hN hs (by rw [hf]; push_cast; omega)
  set b1 := (runFrames (k + 1) b).1 with hb1
  have hsend := processFrame_send b1 0 (hns.2.1 ▸ hN)
    (by rw [hns.2.2.1, hns.2.2.2]; omega)
  have hadd := runFrames_add (k + 1) 1 b
  have h1 : runFrames 1 b1 = ((b1.processFrame 0).1, if (b1.processFrame 0).2 then 1 else 0) := by
    simp [runFrames]
  refine ⟨?_, ?_, ?_, ?_⟩
  · rw [hadd.2, hns.1, h1]; simp [hsend.1]
  · rw [hadd.1, h1]; simpa [processFrame_cfg] using hns.2.1
  · rw [hadd.1, h1]; simpa [processFrame_skip] using hns.2.2.1
  · rw [hadd.1, h1]; simpa using hsend.2

lemma runFrames_blocks (k : ℕ) : ∀ (m : ℕ) (b : Browser),
    b.cfg.N = true → b.ndiFramesToSkip = (k : ℤ) → b.frames = 0 →
    (runFrames ((k + 2) * m) b).2 = m ∧
    (runFrames ((k + 2) * m) b).1.cfg = b.cfg ∧
    (runFrames ((k + 2) * m) b).1.ndiFramesToSkip = (k : ℤ) ∧
    (runFrames ((k + 2) * m) b).1.frames = 0 := by
  intro m
  induction m with
  | zero => intro b _ hs hf; exact ⟨rfl, rfl, hs, hf⟩
  | succ m ih =>
    intro b hN hs hf
    have hmul : (k + 2) * (m + 1) = (k + 2) + (k + 2) * m := by ring
    rw [hmul]
    have hcyc := runFrames_cycle k b hN hs hf
    have hadd := runFrames_add (k + 2) ((k + 2) * m) b
    have ihr := ih (runFrames (k + 2) b).1 (hcyc.2.1 ▸ hN) hcyc.2.2.1 hcyc.2.2.2
    refine ⟨?_, ?_, ?_, ?_⟩
    · rw [hadd.2, hcyc.1, ihr.1]; omega
    · rw [hadd.1, ihr.2.1, hcyc.2.1]
    · rw [hadd.1]; exact ihr.2.2.1
    · rw [hadd.1]; exact ihr.2.2.2

lemma processFrame_win (b : Browser) (dt : ℚ) :
    (b.processFrame dt).1.win = b.win := by
  unfold Browser.processFrame
  split <;> rfl

lemma runFrames_one (b : Browser) :
    (runFrames 1 b).2 = (if (b.processFrame 0).2 then 1 else 0) ∧
    (runFrames 1 b).1 = (b.processFrame 0).1 := by
  simp [runFrames]

lemma update_governor (b : Browser) :
    b.update.ndiFramesToSkip = b.ndiFramesToSkip ∧ b.update.frames = b.frames ∧
    b.update.cfg = b.cfg ∧ b.update.win = b.win := by
  unfold Browser.update
  repeat' split
  all_goals exact ⟨rfl, rfl, rfl, rfl⟩

/-- The skip threshold computed by `start()` for the polled fixture:
`Math.trunc(60 / 30 - 1) = 1`. -/
lemma bPolled_skip : bPolled.ndiFramesToSkip = 1 := by
  simp only [bPolled, Browser.start, Browser.init, cfgPolled, env60]
  norm_num [jsTrunc]

/-! Helper lemmas about the registry. -/

lemma find_eq_none_of_not_mem : ∀ (r : Registry) (id : String),
    id ∉ r.map Prod.fst → Registry.find r id = none := by
  intro r
  induction r with
  | nil => intro id _; rfl
  | cons kb r ih =>
    intro id h
    simp only [List.map_cons, List.mem_cons, not_or] at h
    have hk : kb.1 ≠ id := fun he => h.1 he.symm
    simp only [Registry.find, if_neg hk]
    exact ih id h.2

lemma erase_eq_of_find_none : ∀ (r : Registry) (id : String),
    Registry.find r id = none → Registry.erase r id = r := by
  intro r
  induction r with
  | nil => intro id _; rfl
  | cons kb r ih =>
    intro id h
    by_cases hk : kb.1 = id
    · simp [Registry.find, hk] at h
    · simp only [Registry.find, if_neg hk] at h
      simp only [Registry.erase, if_neg hk, ih id h]

lemma find_erase_self : ∀ (r : Registry) (id : String),
    (r.map Prod.fst).Nodup → Registry.find (Registry.erase r id) id = none := by
  intro r
  induction r with
  | nil => intro id _; rfl
  | cons kb r ih =>
    intro id hnd
    simp only [List.map_cons, List.nodup_cons] at hnd
    by_cases hk : kb.1 = id
    · simp only [Registry.erase, if_pos hk]
      exact find_eq_none_of_not_mem r id (hk ▸ hnd.1)
    · simp only [Registry.erase, if_neg hk, Registry.find, if_neg hk]
      exact ih id hnd.2

lemma find_erase_ne : ∀ (r : Registry) (id id2 : String), id2 ≠ id →
    Registry.find (Registry.erase r id) id2 = Registry.find r id2 := by
  intro r
  induction r with
  | nil => intro id id2 _; rfl
  | cons kb r ih =>
    intro id id2 h
    by_cases hk : kb.1 = id
    · have hk2 : kb.1 ≠ id2 := fun he => h (he ▸ hk)
      simp only [Registry.erase, if_pos hk, Registry.find, if_neg hk2]
    · simp only [Registry.erase, if_neg hk, Registry.find]
      by_cases hk2 : kb.1 = id2
      · simp [hk2]
      · simp only [if_neg hk2, ih id id2 h]

/-! Helper lemmas about the Moving Statistics Tracker. -/

lemma windowOf_length (N : ℕ) (vs : List ℚ) : (windowOf N vs).length = N := by
  rw [windowOf, List.length_take, List.length_append, List.length_reverse,
    List.length_replicate]
  omega

lemma windowOf_nil (N : ℕ) : windowOf N [] = List.replicate N 0 := by
  rw [windowOf]
  simp [List.take_replicate]

lemma dropLast_take_succ (n : ℕ) (l : List ℚ) (h : n + 1 ≤ l.length) :
    (l.take (n + 1)).dropLast = l.take n := by
  rw [List.dropLast_eq_take, List.length_take, List.take_take]
  congr 1
  omega

lemma windowOf_snoc (N : ℕ) (hN : 1 ≤ N) (us : List ℚ) (v : ℚ) :
    windowOf N (us ++ [v]) = v :: (windowOf N us).dropLast := by
  obtain ⟨n, rfl⟩ : ∃ n, N = n + 1 := ⟨N - 1, by omega⟩
  rw [windowOf, List.reverse_append]
  simp only [List.reverse_cons, List.reverse_nil, List.nil_append,
    List.cons_append, List.take_succ_cons]
  congr 1
  rw [windowOf, dropLast_take_succ n (us.reverse ++ List.replicate (n + 1) 0)
    (by rw [List.length_append, List.length_reverse, List.length_replicate]; omega)]

lemma record_fields (w : WeightedAverage) (v : ℚ) :
    ((w.record v).1).len = w.len ∧ ((w.record v).1).every = w.every ∧
    ((w.record v).1).val = v :: w.val.dropLast :=
  ⟨rfl, rfl, rfl⟩

lemma recordMany_state (N : ℕ) (hN : 1 ≤ N) (e : ℚ) :
    ∀ (vs us : List ℚ) (w : WeightedAverage), w.len = N → w.every = e →
      w.val = windowOf N us →
      (recordMany w vs).1.len = N ∧ (recordMany w vs).1.every = e ∧
      (recordMany w vs).1.val = windowOf N (us ++ vs) := by
  intro vs
  induction vs with
  | nil =>
    intro us w h1 h2 h3
    simpa [recordMany] using ⟨h1, h2, h3⟩
  | cons v vs ih =>
    intro us w h1 h2 h3
    have hval : (w.record v).1.val = windowOf N (us ++ [v]) := by
      rw [(record_fields w v).2.2, h3, windowOf_snoc N hN us v]
    have h := ih (us ++ [v]) (w.record v).1 ((record_fields w v).1.trans h1)
      ((record_fields w v).2.1.trans h2) hval
    simpa [recordMany, List.append_assoc] using h

lemma recordMany_init_state (N : ℕ) (hN : 1 ≤ N) (e : ℚ) (vs : List ℚ) :
    (recordMany (WeightedAverage.init N e) vs).1.len = N ∧
    (recordMany (WeightedAverage.init N e) vs).1.every = e ∧
    (recordMany (WeightedAverage.init N e) vs).1.val = windowOf N vs := by
  have h := recordMany_state N hN e vs [] (WeightedAverage.init N e) rfl rfl
    (by rw [windowOf_nil]; rfl)
  simpa using h

lemma record_sample_fields (w : WeightedAverage) (v : ℚ) (s : StatSample)
    (h : (w.record v).2 = some s) :
    s.max = windowMax ((v :: w.val.dropLast).take w.len) ∧
    s.min = windowMin ((v :: w.val.dropLast).take w.len) ∧
    s.avg = wsum w.len ((v :: w.val.dropLast).take w.len)
      / ksum w.len ((v :: w.val.dropLast).take w.len) := by
  by_cases hc : w.every < (w.cnt : ℚ)
  · simp only [WeightedAverage.record, if_pos hc, Option.some.injEq] at h
    rw [← h]
    exact ⟨rfl, rfl, rfl⟩
  · simp only [WeightedAverage.record, if_neg hc] at h
    exact absurd h (by simp)

lemma record_emits (w : WeightedAverage) (v : ℚ) (h : w.every < (w.cnt : ℚ)) :
    (w.record v).2 = some
      { avg := wsum w.len ((v :: w.val.dropLast).take w.len)
          / ksum w.len ((v :: w.val.dropLast).take w.len),
        min := windowMin ((v :: w.val.dropLast).take w.len),
        max := windowMax ((v :: w.val.dropLast).take w.len),
        tmin := if JNum.lt (windowMax ((v :: w.val.dropLast).take w.len)) w.min
          then windowMax ((v :: w.val.dropLast).take w.len) else w.min,
        tmax := if JNum.lt w.max (windowMax ((v :: w.val.dropLast).take w.len))
          then windowMax ((v :: w.val.dropLast).take w.len) else w.max } := by
  simp only [WeightedAverage.record, if_pos h]

lemma recordMany_append (w : WeightedAverage) (vs ws : List ℚ) :
    recordMany w (vs ++ ws)
      = ((recordMany (recordMany w vs).1 ws).1,
         (recordMany w vs).2 ++ (recordMany (recordMany w vs).1 ws).2) := by
  induction vs generalizing w with
  | nil => simp [recordMany]
  | cons v vs ih => simp [recordMany, ih, List.append_assoc]

lemma foldl_choice_mem (f : JNum → ℚ → JNum)
    (hf : ∀ m x, f m x = m ∨ f m x = .fin x) :
    ∀ (l : List ℚ) (m : JNum), l.foldl f m = m ∨ l.foldl f m ∈ l.map JNum.fin := by
  intro l
  induction l with
  | nil => intro m; left; rfl
  | cons x xs ih =>
    intro m
    rw [List.foldl_cons, List.map_cons]
    rcases ih (f m x) with h | h
    · rw [h]
      rcases hf m x with h2 | h2
      · left; exact h2
      · right; rw [h2]; exact List.mem_cons_self _ _
    · right; exact List.mem_cons_of_mem _ h

lemma windowMax_mem (l : List ℚ) (hl : l ≠ []) : windowMax l ∈ l.map JNum.fin := by
  obtain ⟨x, xs, rfl⟩ := List.exists_cons_of_ne_nil hl
  rw [windowMax, List.foldl_cons, List.map_cons]
  rw [show (if JNum.lt .negInf (.fin x) then JNum.fin x else .negInf) = .fin x by
    simp [JNum.lt]]
  rcases foldl_choice_mem (fun m x => if JNum.lt m (.fin x) then .fin x else m)
      (fun m y => by
        by_cases h : JNum.lt m (.fin y) = true <;> simp [h]) xs (.fin x) with h | h
  · rw [h]; exact List.mem_cons_self _ _
  · exact List.mem_cons_of_mem _ h

lemma windowMin_mem (l : List ℚ) (hl : l ≠ []) : windowMin l ∈ l.map JNum.fin := by
  obtain ⟨x, xs, rfl⟩ := List.exists_cons_of_ne_nil hl
  rw [windowMin, List.foldl_cons, List.map_cons]
  rw [show (if JNum.lt (.fin x) .posInf then JNum.fin x else .posInf) = .fin x by
    simp [JNum.lt]]
  rcases foldl_choice_mem (fun m x => if JNum.lt (.fin x) m then .fin x else m)
      (fun m y => by
        by_cases h : JNum.lt (.fin y) m = true <;> simp [h]) xs (.fin x) with h | h
  · rw [h]; exact List.mem_cons_self _ _
  · exact List.mem_cons_of_mem _ h

lemma desc_length (n : ℕ) : (desc n).length = n := by
  induction n with
  | zero => rfl
  | succ n ih => simp [desc, ih]

lemma inputs_length (n : ℕ) : (inputs n).length = n := by
  induction n with
  | zero => rfl
  | succ n ih => simp [inputs, ih]

lemma inputs_reverse (n : ℕ) : (inputs n).reverse = desc n := by
  induction n with
  | zero => rfl
  | succ n ih => simp [inputs, desc, ih]

lemma windowOf_inputs (n : ℕ) : windowOf n (inputs n) = desc n := by
  rw [windowOf, List.take_append_of_le_length
    (by rw [List.length_reverse, inputs_length]), inputs_reverse]
  exact List.take_of_length_le (by rw [desc_length])

lemma wsum_desc (n : ℕ) : 6 * wsum n (desc n) = (n : ℚ) * (n + 1) * (2 * n + 1) := by
  induction n with
  | zero => simp [desc, wsum]
  | succ n ih =>
    rw [desc, wsum, Nat.add_sub_cancel]
    push_cast
    push_cast at ih
    ring_nf
    ring_nf at ih
    linarith

lemma ksum_desc (n : ℕ) : 2 * ksum n (desc n) = (n : ℚ) * (n + 1) := by
  induction n with
  | zero => simp [desc, ksum]
  | succ n ih =>
    rw [desc, ksum, Nat.add_sub_cancel]
    push_cast
    push_cast at ih
    ring_nf
    ring_nf at ih
    linarith

/-! Claim theorems. -/

/-- C1.  The rate-governor check `if (this.frames++ > this.ndiFramesToSkip)`
does **not** forward 1 of every `k+1` arrivals: starting from a reset
counter it forwards exactly 1 of every `k+2` consecutive arrivals (the
post-increment plus the reset to 0 skip `k+1` arrivals per forwarded one).
In the claim's own end-to-end scenario — display refresh 60, target rate
30 — the computed threshold is indeed 1, but 10 consecutive polled
callbacks forward only 3 network frames, not 5. -/
theorem c1_rate_governor_off_by_one :
    bPolled.ndiFramesToSkip = 1 ∧
    (runFrames 10 bPolled).2 = 3 ∧
    (runFrames 10 bPolled).2 ≠ 5 ∧
    ∀ (k m : ℕ) (b : Browser), b.cfg.N = true → b.ndiFramesToSkip = (k : ℤ) →
      b.frames = 0 → (runFrames ((k + 2) * m) b).2 = m := by
  have hskip : bPolled.ndiFramesToSkip = ((1 : ℕ) : ℤ) := by
    rw [bPolled_skip]; norm_num
  have hcount : (runFrames 10 bPolled).2 = 3 := by
    have hblocks := runFrames_blocks 1 3 bPolled rfl hskip rfl
    have h9 : ((1 : ℕ) + 2) * 3 = 9 := by norm_num
    rw [h9] at hblocks
    have h10 : (10 : ℕ) = 9 + 1 := by norm_num
    rw [h10]
    have hadd := runFrames_add 9 1 bPolled
    set b9 := (runFrames 9 bPolled).1 with hb9
    have hlast := processFrame_no_send b9 0 (hblocks.2.1 ▸ rfl)
      (by rw [hblocks.2.2.1, hblocks.2.2.2]; norm_num)
    rw [hadd.2, hblocks.1, (runFrames_one b9).1, hlast.1]
    norm_num
  refine ⟨by rw [bPolled_skip], hcount, by rw [hcount]; norm_num, ?_⟩
  intro k m b hN hs hf
  exact (runFrames_blocks k m b hN hs hf).1

/-- Witness for C1: the surface started from `cfgPolled` under `env60`
satisfies the hypotheses of the universally quantified part at `k = 1`,
`m = 2`: 6 arrivals yield exactly 2 forwarded frames. -/
theorem c1_rate_governor_off_by_one_witness :
    (runFrames ((1 + 2) * 2) bPolled).2 = 2 :=
  c1_rate_governor_off_by_one.2.2.2 1 2 bPolled rfl
    (by rw [bPolled_skip]; norm_num) rfl

/-- C2.  In push mode (`cfg.D = false`, `cfg.N = true`) the skip threshold
is indeed set to 0, but **not** every paint callback produces a network
video frame: the very first callback is skipped (`0 > 0` is false) and only
every second callback is forwarded, so 2 callbacks yield 1 frame. -/
theorem c2_push_mode_drops_half :
    bPush.ndiFramesToSkip = 0 ∧
    (bPush.processFrame 0).2 = false ∧
    (runFrames 2 bPush).2 = 1 := by
  decide

/-- C3.  For every surface with a live window handle (Running), `stop()`
returns successfully with the handle released and null, whether or not the
rendering surface self-reports closure; the model performs exactly one
1-second grace-period timeout. -/
theorem c3_stop_always_reaches_stopped (b : Browser) (selfClose : Bool)
    (h : b.win.isSome = true) :
    ∃ b', Browser.stop selfClose b = .ok b' ∧ b'.win = none := by
  cases hw : b.win with
  | none => rw [hw] at h; simp at h
  | some w =>
    refine ⟨{ b with win := none }, ?_, rfl⟩
    cases selfClose <;> simp [Browser.stop, hw]

/-- Witness for C3: stopping the concrete Running surface `bRun` (whose
window never self-reports closure) ends with a null window handle. -/
theorem c3_stop_always_reaches_stopped_witness :
    ∃ b', Browser.stop false bRun = .ok b' ∧ b'.win = none :=
  c3_stop_always_reaches_stopped bRun false (by decide)

/-- C4.  Dispatching `start` on a Running surface fails with
`"browser already running"`, and dispatching `reload` or `stop` on a
not-Running surface fails with `"browser still not running"`; in each case
the returned state is exactly the input state — registry (window handle,
stream handle, counters, config of every surface) and emitted-event list
unchanged. -/
theorem c4_invalid_transitions_rejected (env : Env) (s : Sys) (id : String)
    (b : Browser) (hb : Registry.find s.browsers id = some b) :
    (b.win.isSome = true →
      control env .start id s = (some "browser already running", s)) ∧
    (b.win = none →
      control env .reload id s = (some "browser still not running", s) ∧
      control env .stop id s = (some "browser still not running", s)) := by
  constructor
  · intro h
    simp [control, hb, Browser.running, h]
  · intro h
    constructor <;> simp [control, hb, Browser.running, h]

/-- Witness for C4: in the concrete registry `sys0`, `start` on the
Running surface `"a"` and `reload`/`stop` on the idle surface `"b"` are
all rejected with the registry and event list untouched. -/
theorem c4_invalid_transitions_rejected_witness :
    control env60 .start "a" sys0 = (some "browser already running", sys0) ∧
    control env60 .reload "b" sys0 = (some "browser still not running", sys0) ∧
    control env60 .stop "b" sys0 = (some "browser still not running", sys0) :=
  ⟨(c4_invalid_transitions_rejected env60 sys0 "a" bRun (by decide)).1 (by decide),
   ((c4_invalid_transitions_rejected env60 sys0 "b" bIdle (by decide)).2 rfl).1,
   ((c4_invalid_transitions_rejected env60 sys0 "b" bIdle (by decide)).2 rfl).2⟩

/-- C5.  The running-min reported by the tracker does **not** equal the
minimum of all recorded values: line `if (this.min > max) this.min = max`
compares against the window *max*.  Recording 5 then 3 into a fresh
tracker (window 2, emitting from the second call) emits a sample with
running-min 5, although 3 is the minimum of the recorded values. -/
theorem c5_running_min_uses_window_max :
    ((recordMany (WeightedAverage.init 2 0) [5, 3]).2).map StatSample.tmin
      = [JNum.fin 5] ∧
    (∀ x ∈ [(5 : ℚ), 3], (3 : ℚ) ≤ x) ∧
    JNum.fin 5 ≠ JNum.fin 3 := by
  decide

/-- Counterexample to C6: with window length 3, recording 5 then 7 into a
fresh tracker emits a StatSample whose window-min is 0 — a value of the
zero pre-fill, strictly below every recorded input, so the min bound is
not attained by any recorded value. -/
theorem c6_min_not_attained_counterexample :
    ((recordMany (WeightedAverage.init 3 0) [5, 7]).2).map StatSample.min
      = [JNum.fin 0] ∧
    (0 : ℚ) < 5 ∧ (0 : ℚ) < 7 := by
  decide

/-- C6 (amended).  Every emitted StatSample's window-min and window-max
are values of the current window — the last `min(t, N)` recorded inputs
padded with the constructor's zeros — and once at least `N` values have
been recorded the window is exactly the last `N` recorded inputs (newest
first), so from then on both bounds are attained among the last `N`
recorded inputs.  (With fewer than `N` values recorded the bounds may be
the padding zero, as the counterexample shows.) -/
theorem c6_window_bounds (N : ℕ) (hN : 1 ≤ N) (e : ℚ) (vs : List ℚ) (v : ℚ)
    (s : StatSample)
    (h : ((recordMany (WeightedAverage.init N e) vs).1.record v).2 = some s) :
    s.max ∈ (windowOf N (vs ++ [v])).map JNum.fin ∧
    s.min ∈ (windowOf N (vs ++ [v])).map JNum.fin ∧
    (N ≤ vs.length + 1 →
      windowOf N (vs ++ [v]) = ((vs ++ [v]).reverse).take N) := by
  have hst := recordMany_init_state N hN e vs
  set w := (recordMany (WeightedAverage.init N e) vs).1 with hw
  have hval : v :: w.val.dropLast = windowOf N (vs ++ [v]) := by
    rw [windowOf_snoc N hN vs v, ← hst.2.2]
  have htake : (v :: w.val.dropLast).take w.len = windowOf N (vs ++ [v]) := by
    rw [hst.1, hval]
    exact List.take_of_length_le (by rw [windowOf_length])
  have hf := record_sample_fields w v s h
  have hne : windowOf N (vs ++ [v]) ≠ [] := by
    intro hnil
    have hl := windowOf_length N (vs ++ [v])
    rw [hnil] at hl
    simp at hl
    omega
  refine ⟨?_, ?_, ?_⟩
  · rw [hf.1, htake]
    exact windowMax_mem _ hne
  · rw [hf.2.1, htake]
    exact windowMin_mem _ hne
  · intro hge
    rw [windowOf, List.take_append_of_le_length
      (by rw [List.length_reverse, List.length_append]; simpa using hge)]

/-- Witness for C6 (amended): a fresh tracker of window 2 emitting on its
first `record(5)` call; both emitted bounds lie in the window `[5, 0]`. -/
theorem c6_window_bounds_witness :
    sampleRec5.max ∈ (windowOf 2 ([] ++ [5])).map JNum.fin ∧
    sampleRec5.min ∈ (windowOf 2 ([] ++ [5])).map JNum.fin := by
  have h : ((recordMany (WeightedAverage.init 2 (-1)) []).1.record 5).2
      = some sampleRec5 := by
    norm_num [recordMany, WeightedAverage.record, WeightedAverage.init,
      windowMin, windowMax, wsum, ksum, JNum.lt, sampleRec5]
  have hc := c6_window_bounds 2 (by norm_num) (-1) [] 5 _ h
  exact ⟨hc.1, hc.2.1⟩

lemma avg_desc_gt (n : ℕ) (hn : 2 ≤ n) :
    ((n : ℚ) + 1) / 2 < wsum n (desc n) / ksum n (desc n) := by
  have h6 := wsum_desc n
  have h2 := ksum_desc n
  have hnq : (2 : ℚ) ≤ (n : ℚ) := by exact_mod_cast hn
  have hkpos : 0 < ksum n (desc n) := by nlinarith
  rw [div_lt_div_iff₀ (by norm_num) hkpos]
  nlinarith

/-- C7 (amended).  For every window length `N ≥ 2`, recording `1, …, N`
into a fresh tracker (emitting on every call) makes the last emitted
triangularly weighted average strictly greater than the unweighted mean
`(N+1)/2`; the weighted average equals `(2N+1)/3`.  At `N = 1` the two
coincide, so strictness needs `N ≥ 2`. -/
theorem c7_recency_bias (N : ℕ) (hN : 2 ≤ N) :
    ∃ s : StatSample,
      ((recordMany (WeightedAverage.init N (-1)) (inputs N)).2).getLast? = some s ∧
      ((N : ℚ) + 1) / 2 < s.avg := by
  obtain ⟨M, rfl⟩ : ∃ M, N = M + 1 := ⟨N - 1, by omega⟩
  have hN1 : 1 ≤ M + 1 := by omega
  have hsplit : inputs (M + 1) = inputs M ++ [((M + 1 : ℕ) : ℚ)] := rfl
  have hst := recordMany_init_state (M + 1) hN1 (-1) (inputs M)
  set w1 := (recordMany (WeightedAverage.init (M + 1) (-1)) (inputs M)).1 with hw1
  have hemit : w1.every < (w1.cnt : ℚ) := by
    rw [hst.2.1]
    have hc : (0 : ℚ) ≤ (w1.cnt : ℚ) := Nat.cast_nonneg _
    linarith
  have hrec := record_emits w1 ((M + 1 : ℕ) : ℚ) hemit
  have hval : ((M + 1 : ℕ) : ℚ) :: w1.val.dropLast
      = windowOf (M + 1) (inputs (M + 1)) := by
    rw [hsplit, windowOf_snoc (M + 1) hN1, ← hst.2.2]
  have htake : (((M + 1 : ℕ) : ℚ) :: w1.val.dropLast).take w1.len
      = desc (M + 1) := by
    rw [hst.1, hval, windowOf_inputs]
    exact List.take_of_length_le (by rw [desc_length])
  rw [htake] at hrec
  have h1 : (recordMany w1 [((M + 1 : ℕ) : ℚ)]).2
      = (w1.record ((M + 1 : ℕ) : ℚ)).2.toList := by
    simp [recordMany]
  have hex : ∃ S : StatSample, (w1.record ((M + 1 : ℕ) : ℚ)).2 = some S ∧
      S.avg = wsum w1.len (desc (M + 1)) / ksum w1.len (desc (M + 1)) :=
    ⟨_, hrec, rfl⟩
  obtain ⟨S, hS, hSavg⟩ := hex
  refine ⟨S, ?_, ?_⟩
  · rw [hsplit, recordMany_append, ← hw1, h1, hS, Option.toList_some,
      List.getLast?_concat]
  · rw [hSavg, hst.1]
    have hgt := avg_desc_gt (M + 1) (by omega)
    push_cast at hgt ⊢
    exact hgt

/-- Witness for C7 (amended): at `N = 2`, the run `record(1); record(2)`
ends with the sample `{avg := 5/3, …}`, and `5/3 > 3/2`. -/
theorem c7_recency_bias_witness :
    ((recordMany (WeightedAverage.init 2 (-1)) (inputs 2)).2).getLast?
      = some sampleDesc2 ∧
    ((2 : ℚ) + 1) / 2 < sampleDesc2.avg := by
  have hconc : ((recordMany (WeightedAverage.init 2 (-1)) (inputs 2)).2).getLast?
      = some sampleDesc2 := by
    norm_num [inputs, recordMany, WeightedAverage.record, WeightedAverage.init,
      windowMin, windowMax, wsum, ksum, JNum.lt, List.getLast?, sampleDesc2]
  obtain ⟨s, hs, hlt⟩ := c7_recency_bias 2 (by norm_num)
  rw [hconc] at hs
  have hse : s = sampleDesc2 := (Option.some.inj hs).symm
  rw [hse] at hlt
  refine ⟨hconc, ?_⟩
  exact_mod_cast hlt

/-- Counterexample to C7: with window length `N = 1`, recording the values
`1, …, N` (that is, just 1) into a fresh tracker yields weighted average 1,
which is *equal* to the unweighted mean `(N+1)/2 = 1`, not strictly
greater. -/
theorem c7_window_one_counterexample :
    ((recordMany (WeightedAverage.init 1 (-1)) (inputs 1)).2).map StatSample.avg
      = [1] ∧
    ¬ ((1 : ℚ) > ((1 : ℚ) + 1) / 2) := by
  constructor
  · have h1 : inputs 1 = [1] := by norm_num [inputs]
    rw [h1]
    simp only [recordMany, WeightedAverage.record, WeightedAverage.init]
    norm_num [wsum, ksum, windowMin, windowMax, JNum.lt]
  · norm_num

/-- Counterexample to C8: on the Running polled surface `bReC` (threshold
1, counter 2), reconfiguring the target rate from 30 to 60 does change
`cfg.f`, but leaves the skip threshold at 1 (the claim demands it be
recomputed to `trunc(60/60) - 1 = 0`) and the frame-skip counter at 2 (the
claim demands a reset to 0). -/
theorem c8_reconfigure_counterexample :
    bReC.running = true ∧ bReC.cfg.D = true ∧
    bReC.ndiFramesToSkip = 1 ∧ bReC.frames = 2 ∧
    (bReC.reconfigure patch60).cfg.f = 60 ∧
    (bReC.reconfigure patch60).ndiFramesToSkip = 1 ∧
    (bReC.reconfigure patch60).frames = 2 := by
  have hb : bReC = ((bPolled.processFrame 0).1.processFrame 0).1 := by
    simp [bReC, runFrames]
  set b1 := (bPolled.processFrame 0).1 with hb1
  have hstep1 := processFrame_no_send bPolled 0 rfl
    (by rw [bPolled_skip, show bPolled.frames = 0 from rfl]; norm_num)
  have hN1 : b1.cfg.N = true := by rw [hb1, processFrame_cfg]; rfl
  have hs1 : b1.ndiFramesToSkip = 1 := by rw [hb1, processFrame_skip, bPolled_skip]
  have hstep2 := processFrame_no_send b1 0 hN1
    (by rw [hs1, hstep1.2, show bPolled.frames = 0 from rfl]; norm_num)
  have hframes : bReC.frames = 2 := by
    rw [hb, hstep2.2, hstep1.2, show bPolled.frames = 0 from rfl]
  have hskip : bReC.ndiFramesToSkip = 1 := by
    rw [hb, processFrame_skip]; exact hs1
  have hcfg : bReC.cfg = cfgPolled := by
    rw [hb, processFrame_cfg, hb1, processFrame_cfg]; rfl
  have hwin : bReC.win = bPolled.win := by
    rw [hb, processFrame_win, hb1, processFrame_win]
  have hrun : bReC.running = true := by
    rw [Browser.running, hwin, show bPolled.win = some { destroyed := false, url := cfgPolled.u } from rfl]
    rfl
  have hrc : bReC.reconfigure patch60 = Browser.update { bReC with cfg := bReC.cfg.merge patch60 } := rfl
  refine ⟨hrun, by rw [hcfg]; rfl, hskip, hframes, ?_, ?_, ?_⟩
  · rw [hrc, (update_governor _).2.2.1]
    rw [show ({ bReC with cfg := bReC.cfg.merge patch60 } : Browser).cfg = bReC.cfg.merge patch60 from rfl]
    rw [hcfg]; rfl
  · rw [hrc, (update_governor _).1]
    exact hskip
  · rw [hrc, (update_governor _).2.1]
    exact hframes

/-- C8 (amended).  `reconfigure` (and the subscription re-evaluation in
`update`) leaves both the skip threshold and the frame-skip counter of
every surface unchanged; `processFrame` never changes the threshold.  The
threshold is recomputed only by `start()`, and the counter is changed only
by `start()` and by the governor's own increment/reset in
`processFrame`. -/
theorem c8_reconfigure_preserves_governor (b : Browser) (p : ConfigPatch) (dt : ℚ) :
    (b.reconfigure p).ndiFramesToSkip = b.ndiFramesToSkip ∧
    (b.reconfigure p).frames = b.frames ∧
    b.update.ndiFramesToSkip = b.ndiFramesToSkip ∧
    b.update.frames = b.frames ∧
    (b.processFrame dt).1.ndiFramesToSkip = b.ndiFramesToSkip := by
  have hu : ∀ b' : Browser, b'.update.ndiFramesToSkip = b'.ndiFramesToSkip ∧
      b'.update.frames = b'.frames := by
    intro b'
    unfold Browser.update
    repeat' split
    all_goals exact ⟨rfl, rfl⟩
  refine ⟨?_, ?_, (hu b).1, (hu b).2, processFrame_skip b dt⟩
  · exact (hu { b with cfg := b.cfg.merge p }).1
  · exact (hu { b with cfg := b.cfg.merge p }).2

/-- Counterexample to C9: dispatching `del` with an id absent from the
registry does **not** fail with an "invalid id" condition — the guard
skips `stop()` and `delete browsers[id]` is a silent no-op, so the call
succeeds and leaves the state unchanged. -/
theorem c9_del_unknown_id_counterexample :
    control env60 .del "zzz" sys0 = (none, sys0) := by
  decide

/-- C9 (amended).  For an id absent from the registry: `start`, `reload`
and `stop` fail with `"invalid browser id"`, `mod` fails by dereferencing
`undefined` (a TypeError, not an explicit invalid-id error), and `del`
succeeds silently; in every case the registry and the event list are left
exactly unchanged. -/
theorem c9_unknown_id (env : Env) (s : Sys) (id : String) (p : ConfigPatch)
    (h : Registry.find s.browsers id = none) :
    control env .start id s = (some "invalid browser id", s) ∧
    control env .reload id s = (some "invalid browser id", s) ∧
    control env .stop id s = (some "invalid browser id", s) ∧
    control env (.mod p) id s = (some "TypeError: cannot read properties of undefined", s) ∧
    control env .del id s = (none, s) := by
  refine ⟨by simp [control, h], by simp [control, h], by simp [control, h],
    by simp [control, h], ?_⟩
  simp [control, erase_eq_of_find_none s.browsers id h]

/-- Witness for C9 (amended): the unknown id `"x"` on the empty registry. -/
theorem c9_unknown_id_witness :
    control env60 .start "x" sysEmpty = (some "invalid browser id", sysEmpty) ∧
    control env60 .reload "x" sysEmpty = (some "invalid browser id", sysEmpty) ∧
    control env60 .stop "x" sysEmpty = (some "invalid browser id", sysEmpty) ∧
    control env60 (.mod {}) "x" sysEmpty
      = (some "TypeError: cannot read properties of undefined", sysEmpty) ∧
    control env60 .del "x" sysEmpty = (none, sysEmpty) :=
  c9_unknown_id env60 sysEmpty "x" {} rfl

/-- Counterexample to C10: `del` on the registered but never-started
surface `"c"` does **not** surface the `"still not started"` error (the
un-awaited async `stop()` turns it into an unobserved rejected promise)
and the surface **is** removed from the registry. -/
theorem c10_del_idle_counterexample :
    (control env60 .del "c" sysIdle).1 = none ∧
    Registry.find (control env60 .del "c" sysIdle).2.browsers "c" = none := by
  decide

/-- C10 (amended).  `del` never surfaces an error: the rejection of the
un-awaited `stop()` is not propagated.  For every id — Running, idle or
absent — `del` completes, removes that id from the (duplicate-free)
registry, leaves every other surface unchanged and emits no event. -/
theorem c10_del_always_removes (env : Env) (s : Sys) (id : String)
    (hnd : (s.browsers.map Prod.fst).Nodup) :
    (control env .del id s).1 = none ∧
    Registry.find (control env .del id s).2.browsers id = none ∧
    (∀ id2, id2 ≠ id →
      Registry.find (control env .del id s).2.browsers id2
        = Registry.find s.browsers id2) ∧
    (control env .del id s).2.events = s.events := by
  refine ⟨rfl, find_erase_self s.browsers id hnd, ?_, rfl⟩
  intro id2 h2
  exact find_erase_ne s.browsers id id2 h2

/-- Witness for C10 (amended): deleting the idle surface `"c"` from
`sysIdle` succeeds, removes it, and emits no event. -/
theorem c10_del_always_removes_witness :
    Registry.find (control env60 .del "c" sysIdle).2.browsers "c" = none ∧
    (control env60 .del "c" sysIdle).2.events = [] :=
  ⟨(c10_del_always_removes env60 sysIdle "c" (by decide)).2.1,
   (c10_del_always_removes env60 sysIdle "c" (by decide)).2.2.2⟩

end Vingester
